import Mathlib

set_option linter.unusedVariables false

/-
  Verification development for the CRPI Robotiq gripper interface
  (src/Libraries/CRPI/crpi_robotiq.h).

  The repository ships only the class declaration; the member function
  bodies (Robotiq.cpp) are not under src/.  Where a definition below
  embeds code that is present in the header (the parameter enum, the
  register buffer sizes) its doc comment cites the header; where the
  deciding code is absent, the definition is modelled from the spec and
  its doc comment starts with: Modelled from the spec.
-/

namespace CrpiRobotiq

/-- Return codes of the shared robot-family API, from the doc comments in
crpi_robotiq.h: SUCCESS if a command is accepted and executed successfully,
REJECT if the command is not accepted, FAILURE if the command is accepted
but not executed successfully. -/
inductive CanonReturn where
  | SUCCESS
  | REJECT
  | FAILURE
deriving DecidableEq, Repr

/-- The parameter enum from crpi_robotiq.h lines 33-42: the seven named
operations the generic parameter setter dispatches to. -/
inductive parameter where
  | ACTIVATE
  | GRIP
  | MOVE
  | AUTO_RELEASE
  | AUTO_CENTER
  | ADVANCED_CONTROL
  | SCISSOR_CONTROL
deriving DecidableEq, Repr

/-- Numeric values the source assigns to the enum (ACTIVATE=1 ... SCISSOR_CONTROL=7). -/
def parameter.value : parameter → Nat
  | .ACTIVATE => 1
  | .GRIP => 2
  | .MOVE => 3
  | .AUTO_RELEASE => 4
  | .AUTO_CENTER => 5
  | .ADVANCED_CONTROL => 6
  | .SCISSOR_CONTROL => 7

/-- The four gripper axes: fingers A, B, C and the scissor axis. -/
inductive Axis where
  | A
  | B
  | C
  | S
deriving DecidableEq, Repr

/-- Size of the command register buffer, from crpi_robotiq.h line 410:
commandRegister_ is declared as a char array of 43 bytes. -/
def commandRegisterLength : Nat := 43

/-- Size of the status register buffer, from crpi_robotiq.h line 412:
statusRegister_ is declared as a char array of 12 bytes. -/
def statusRegisterLength : Nat := 12

/-- Modelled from the spec: the setter bodies (setPositionFingerA and its
siblings are only declared in the header) saturate caller-supplied values
into the 8-bit range 0..255 rather than wrapping them modulo 256. -/
def clamp255 (p : Int) : Nat :=
  if p < 0 then 0 else if p > 255 then 255 else p.toNat

/-- Modelled from the spec: the staged command-register state mirrored by
the CrpiRobotiq private fields — activation bit rACT, two mode bits rMOD,
go-to bit rGTO, auto-release bit rATR, individual-finger-control bit rICF,
individual-scissor-control bit rICS, and per-axis 8-bit position, speed
and force targets in axis order A, B, C, Scissor. -/
structure CommandState where
  rACT : Bool
  rMOD : Nat
  rGTO : Bool
  rATR : Bool
  rICF : Bool
  rICS : Bool
  posA : Nat
  spdA : Nat
  frcA : Nat
  posB : Nat
  spdB : Nat
  frcB : Nat
  posC : Nat
  spdC : Nat
  frcC : Nat
  posS : Nat
  spdS : Nat
  frcS : Nat
deriving DecidableEq, Repr

/-- Modelled from the spec: setPositionFingerA (declared at crpi_robotiq.h
line 438) stages a saturated position target for finger A. -/
def setPositionFingerA (c : CommandState) (p : Int) : CommandState :=
  { c with posA := clamp255 p }

/-- Modelled from the spec: setSpeedFingerA stages a saturated speed for finger A. -/
def setSpeedFingerA (c : CommandState) (p : Int) : CommandState :=
  { c with spdA := clamp255 p }

/-- Modelled from the spec: setForceFingerA stages a saturated force for finger A. -/
def setForceFingerA (c : CommandState) (p : Int) : CommandState :=
  { c with frcA := clamp255 p }

/-- Modelled from the spec: setPositionFingerB stages a saturated position for finger B. -/
def setPositionFingerB (c : CommandState) (p : Int) : CommandState :=
  { c with posB := clamp255 p }

/-- Modelled from the spec: setSpeedFingerB stages a saturated speed for finger B. -/
def setSpeedFingerB (c : CommandState) (p : Int) : CommandState :=
  { c with spdB := clamp255 p }

/-- Modelled from the spec: setForceFingerB stages a saturated force for finger B. -/
def setForceFingerB (c : CommandState) (p : Int) : CommandState :=
  { c with frcB := clamp255 p }

/-- Modelled from the spec: setPositionFingerC stages a saturated position for finger C. -/
def setPositionFingerC (c : CommandState) (p : Int) : CommandState :=
  { c with posC := clamp255 p }

/-- Modelled from the spec: setSpeedFingerC stages a saturated speed for finger C. -/
def setSpeedFingerC (c : CommandState) (p : Int) : CommandState :=
  { c with spdC := clamp255 p }

/-- Modelled from the spec: setForceFingerC stages a saturated force for finger C. -/
def setForceFingerC (c : CommandState) (p : Int) : CommandState :=
  { c with frcC := clamp255 p }

/-- Modelled from the spec: setPositionScissor stages a saturated position for the scissor axis. -/
def setPositionScissor (c : CommandState) (p : Int) : CommandState :=
  { c with posS := clamp255 p }

/-- Modelled from the spec: setSpeedScissor stages a saturated speed for the scissor axis. -/
def setSpeedScissor (c : CommandState) (p : Int) : CommandState :=
  { c with spdS := clamp255 p }

/-- Modelled from the spec: setForceScissor stages a saturated force for the scissor axis. -/
def setForceScissor (c : CommandState) (p : Int) : CommandState :=
  { c with frcS := clamp255 p }

/-- Per-axis dispatch onto the position setters declared in the header. -/
def setPosition (c : CommandState) : Axis → Int → CommandState
  | .A, p => setPositionFingerA c p
  | .B, p => setPositionFingerB c p
  | .C, p => setPositionFingerC c p
  | .S, p => setPositionScissor c p

/-- Per-axis dispatch onto the speed setters declared in the header. -/
def setSpeed (c : CommandState) : Axis → Int → CommandState
  | .A, p => setSpeedFingerA c p
  | .B, p => setSpeedFingerB c p
  | .C, p => setSpeedFingerC c p
  | .S, p => setSpeedScissor c p

/-- Per-axis dispatch onto the force setters declared in the header. -/
def setForce (c : CommandState) : Axis → Int → CommandState
  | .A, p => setForceFingerA c p
  | .B, p => setForceFingerB c p
  | .C, p => setForceFingerC c p
  | .S, p => setForceScissor c p

/-- The staged position target of an axis. -/
def CommandState.posOf (c : CommandState) : Axis → Nat
  | .A => c.posA
  | .B => c.posB
  | .C => c.posC
  | .S => c.posS

/-- The staged speed target of an axis. -/
def CommandState.spdOf (c : CommandState) : Axis → Nat
  | .A => c.spdA
  | .B => c.spdB
  | .C => c.spdC
  | .S => c.spdS

/-- The staged force target of an axis. -/
def CommandState.frcOf (c : CommandState) : Axis → Nat
  | .A => c.frcA
  | .B => c.frcB
  | .C => c.frcC
  | .S => c.frcS

/-- Modelled from the spec: scissor fields are honored only when the current
mode enables individual scissor control or the scissor grasp mode. -/
def scissorEnabled (c : CommandState) : Bool :=
  c.rICS || (c.rMOD % 4 == 3)

/-- Whether an axis is enabled by the staged command register: fingers A, B
and C always are; the scissor axis only under scissor control. -/
def axisEnabled (c : CommandState) : Axis → Bool
  | .A => true
  | .B => true
  | .C => true
  | .S => scissorEnabled c

/-- Modelled from the spec: byte 0 of the command register carries the
activation, mode, go-to, auto-release and individual-control bits. -/
def actionByte (c : CommandState) : Nat :=
  (if c.rACT then 1 else 0) + 2 * (c.rMOD % 4) + (if c.rGTO then 8 else 0) +
    (if c.rATR then 16 else 0) + (if c.rICF then 32 else 0) + (if c.rICS then 64 else 0)

/-- Scissor position byte actually encoded: omitted (zero) when the mode
does not use the scissor axis. -/
def scissorPosByte (c : CommandState) : Nat :=
  if scissorEnabled c then c.posS else 0

/-- Scissor speed byte actually encoded. -/
def scissorSpdByte (c : CommandState) : Nat :=
  if scissorEnabled c then c.spdS else 0

/-- Scissor force byte actually encoded. -/
def scissorFrcByte (c : CommandState) : Nat :=
  if scissorEnabled c then c.frcS else 0

/-- Modelled from the spec: encoding of the staged state into the fixed
43-byte command register (commandRegister_ in the header): byte 0 packs the
mode and action bits, bytes 1..12 carry the per-axis position, speed and
force triples in axis order A, B, C, Scissor (scissor bytes omitted when
the mode does not use them), and the remaining bytes are transport framing,
unspecified by the spec and modelled as zero padding. -/
def encodeCommand (c : CommandState) : List Nat :=
  actionByte c :: c.posA :: c.spdA :: c.frcA :: c.posB :: c.spdB :: c.frcB ::
    c.posC :: c.spdC :: c.frcC :: scissorPosByte c :: scissorSpdByte c :: scissorFrcByte c ::
    List.replicate 30 0

/-- Index of an axis position byte inside the encoded command register. -/
def posIndex : Axis → Nat
  | .A => 1
  | .B => 4
  | .C => 7
  | .S => 10

/-- Modelled from the spec: the recognized leading marker of a received
status frame; its concrete value is transport framing unspecified by the
spec, modelled as the fixed constant 9. -/
def statusMarker : Nat := 9

/-- Modelled from the spec: the known offset inside a received frame at
which the fixed-size status register starts, right after the leading
marker byte. -/
def statusOffset : Nat := 1

/-- The decoded status fields mirrored by the CrpiRobotiq private ints
(crpi_robotiq.h lines 415-420): packed status bits gACT, gMOD, gGTO, gIMC,
gSTA; per-axis object-detection flags gDTA, gDTB, gDTC, gDTS; fault code
gFLT; and the per-finger requested-position echo, current position and
current draw. -/
structure StatusFields where
  gACT : Nat
  gMOD : Nat
  gGTO : Nat
  gIMC : Nat
  gSTA : Nat
  gDTA : Nat
  gDTB : Nat
  gDTC : Nat
  gDTS : Nat
  gFLT : Nat
  reqEchoA : Nat
  curPosA : Nat
  curA : Nat
  reqEchoB : Nat
  curPosB : Nat
  curB : Nat
  reqEchoC : Nat
  curPosC : Nat
  curC : Nat
deriving DecidableEq, Repr

/-- Modelled from the spec: decoding of the 12-byte status register.  Byte
0 packs gACT (bit 0), gMOD (bits 1-2), gGTO (bit 3), gIMC (bits 4-5) and
gSTA (bits 6-7); byte 1 packs the four 2-bit object-detection flags; bytes
2..10 carry the per-finger requested/current position and current draw for
fingers A, B, C; the trailing byte 11 is the fault code gFLT. -/
def decodeStatus (reg : List Nat) : StatusFields :=
  let b0 := reg.getD 0 0
  let b1 := reg.getD 1 0
  { gACT := b0 % 2
    gMOD := b0 / 2 % 4
    gGTO := b0 / 8 % 2
    gIMC := b0 / 16 % 4
    gSTA := b0 / 64 % 4
    gDTA := b1 % 4
    gDTB := b1 / 4 % 4
    gDTC := b1 / 16 % 4
    gDTS := b1 / 64 % 4
    gFLT := reg.getD 11 0
    reqEchoA := reg.getD 2 0
    curPosA := reg.getD 3 0
    curA := reg.getD 4 0
    reqEchoB := reg.getD 5 0
    curPosB := reg.getD 6 0
    curB := reg.getD 7 0
    reqEchoC := reg.getD 8 0
    curPosC := reg.getD 9 0
    curC := reg.getD 10 0 }

/-- The object-detection flag of an axis in a decoded status. -/
def detectFlag (st : StatusFields) : Axis → Nat
  | .A => st.gDTA
  | .B => st.gDTB
  | .C => st.gDTC
  | .S => st.gDTS

/-- Modelled from the spec: the axes whose detection flags matter under a
decoded mode — the scissor axis in scissor mode, fingers A, B, C in the
basic, pinch and wide modes. -/
def enabledAxes (mode : Nat) : List Axis :=
  if mode == 3 then [.S] else [.A, .B, .C]

/-- Modelled from the spec: the derived flag allFingersAtPos_ is computed
from a decoded status as: every axis enabled by the current mode reports a
detection flag other than in-motion (flag 0). -/
def computeAllFingersAtPos (st : StatusFields) : Bool :=
  (enabledAxes st.gMOD).all (fun a => detectFlag st a != 0)

/-- Modelled from the spec: graspedOnClose_ holds when some enabled axis
reports stopped-closing-detected (flag 2). -/
def computeGraspedOnClose (st : StatusFields) : Bool :=
  (enabledAxes st.gMOD).any (fun a => detectFlag st a == 2)

/-- Modelled from the spec: graspedOnOpen_ holds when some enabled axis
reports stopped-opening-detected (flag 1). -/
def computeGraspedOnOpen (st : StatusFields) : Bool :=
  (enabledAxes st.gMOD).any (fun a => detectFlag st a == 1)

/-- The gripper Session State: staged command register, last decoded status
fields, the cached raw status register bytes, and the derived booleans. -/
structure SessionState where
  command : CommandState
  status : StatusFields
  statusRegister : List Nat
  graspedOnClose : Bool
  graspedOnOpen : Bool
  allFingersAtPos : Bool
deriving DecidableEq, Repr

/-- Modelled from the spec: getStatusRegisters (declared at crpi_robotiq.h
line 434) validates a received frame — it must be long enough to hold the
fixed-size status register at the known offset and must start with the
recognized leading marker — and on failure discards the frame whole,
leaving the cached state untouched; on success it extracts the 12-byte
register, decodes it and refreshes the cached register, the decoded fields
and the derived booleans. -/
def getStatusRegisters (frame : List Nat) (s : SessionState) : SessionState :=
  if frame.length < statusOffset + statusRegisterLength ∨ frame.headD 0 ≠ statusMarker then
    s
  else
    let reg := (frame.drop statusOffset).take statusRegisterLength
    let st := decodeStatus reg
    { s with
      status := st
      statusRegister := reg
      graspedOnClose := computeGraspedOnClose st
      graspedOnOpen := computeGraspedOnOpen st
      allFingersAtPos := computeAllFingersAtPos st }

/-- Outcome of one bounded-timeout transmit/acknowledge round on the
external transport, as seen by the Link Driver. -/
inductive AckResult where
  | acked
  | timedOut
deriving DecidableEq, Repr

/-- Modelled from the spec: sendCommand (declared at crpi_robotiq.h line
432) writes the encoded command register over the transport and waits with
a bounded timeout for the hardware acknowledgement; on timeout it reports
a transport failure and leaves the Session State untouched. -/
def sendCommand (s : SessionState) (ack : AckResult) : CanonReturn × SessionState :=
  match ack with
  | .acked => (.SUCCESS, s)
  | .timedOut => (.FAILURE, s)

/-- Whether a status read has confirmed activation: the last decoded status
echoes the activation bit. -/
def activated (s : SessionState) : Bool :=
  s.status.gACT == 1

/-- Modelled from the spec: setGrip (declared at crpi_robotiq.h line 436)
stages the 2-bit grasp mode, saturating the caller value into 0..3. -/
def setGrip (c : CommandState) (val : Int) : CommandState :=
  { c with rMOD := if val < 0 then 0 else if val > 3 then 3 else val.toNat }

/-- Modelled from the spec: setHandParam (declared at crpi_robotiq.h line
430) applies one of the seven enum operations to the Session State.
Activation staging is always accepted; every other command issued before a
status read has confirmed activation is a rejection (precondition not
met).  The exact register effect of auto-center is unspecified by the
spec; it is modelled as clearing the individual-control bits. -/
def setHandParam (s : SessionState) (p : parameter) (val : Int) : CanonReturn × SessionState :=
  match p with
  | .ACTIVATE => (.SUCCESS, { s with command := { s.command with rACT := val != 0 } })
  | .GRIP =>
    if activated s then (.SUCCESS, { s with command := setGrip s.command val })
    else (.REJECT, s)
  | .MOVE =>
    if activated s then (.SUCCESS, { s with command := { s.command with rGTO := true } })
    else (.REJECT, s)
  | .AUTO_RELEASE =>
    if activated s then (.SUCCESS, { s with command := { s.command with rATR := val != 0 } })
    else (.REJECT, s)
  | .AUTO_CENTER =>
    if activated s then (.SUCCESS, { s with command := { s.command with rICF := false, rICS := false } })
    else (.REJECT, s)
  | .ADVANCED_CONTROL =>
    if activated s then (.SUCCESS, { s with command := { s.command with rICF := val != 0 } })
    else (.REJECT, s)
  | .SCISSOR_CONTROL =>
    if activated s then (.SUCCESS, { s with command := { s.command with rICS := val != 0 } })
    else (.REJECT, s)

/-- Modelled from the spec: the parameter names the generic setter
recognizes, resolved to the enum of crpi_robotiq.h lines 33-42. -/
def parseParam (name : String) : Option parameter :=
  if name = "activate" then some .ACTIVATE
  else if name = "grip" then some .GRIP
  else if name = "move" then some .MOVE
  else if name = "auto-release" then some .AUTO_RELEASE
  else if name = "auto-center" then some .AUTO_CENTER
  else if name = "advanced-control" then some .ADVANCED_CONTROL
  else if name = "scissor-control" then some .SCISSOR_CONTROL
  else none

/-- Modelled from the spec: SetParameter (declared at crpi_robotiq.h line
310) resolves the parameter name and dispatches to setHandParam;
unrecognized names are rejected without mutating the Session State. -/
def SetParameter (s : SessionState) (name : String) (val : Int) : CanonReturn × SessionState :=
  match parseParam name with
  | some p => setHandParam s p val
  | none => (.REJECT, s)

/-- Builds a synthetic 13-byte received status frame (leading marker plus
12 register bytes) from chosen activation, mode, go-to, initialization,
gripper-status and fault values, in the layout decodeStatus expects; the
detection and per-finger diagnostic bytes are zero. -/
def buildStatusFrame (act mode gto imc sta flt : Nat) : List Nat :=
  [statusMarker, act + 2 * mode + 8 * gto + 16 * imc + 64 * sta,
   0, 0, 0, 0, 0, 0, 0, 0, 0, 0, flt]

/-- A 6DOF Cartesian pose of the shared robot-family API (position and
rotation components), used only as an opaque argument to the rejection
stubs; coordinates are modelled as integers since the stubs never compute
with them. -/
structure robotPose where
  x : Int
  y : Int
  z : Int
  xrot : Int
  yrot : Int
  zrot : Int
deriving DecidableEq, Repr

/-- An array of axis values of the shared robot-family API. -/
structure robotAxes where
  axis : List Int
deriving DecidableEq, Repr

/-- Appendage identifier of the shared robot-family API, used only as an
opaque argument to the PointAppendage rejection stub. -/
inductive CanonRobotAppendage where
  | armOf : Nat → CanonRobotAppendage
  | head
deriving DecidableEq, Repr

/-- Modelled from the spec: ApplyCartesianForceTorque is meaningful only
for articulated arms and is implemented as a rejection stub. -/
def ApplyCartesianForceTorque (s : SessionState) (robotForceTorque : robotPose)
    (activeAxes manipulator : List Bool) : CanonReturn × SessionState :=
  (.REJECT, s)

/-- Modelled from the spec: ApplyJointTorque is a rejection stub. -/
def ApplyJointTorque (s : SessionState) (robotJointTorque : robotAxes) :
    CanonReturn × SessionState :=
  (.REJECT, s)

/-- Modelled from the spec: MoveStraightTo is a rejection stub. -/
def MoveStraightTo (s : SessionState) (pose : robotPose) (useBlocking : Bool) :
    CanonReturn × SessionState :=
  (.REJECT, s)

/-- Modelled from the spec: MoveThroughTo is a rejection stub. -/
def MoveThroughTo (s : SessionState) (poses : List robotPose) (numPoses : Nat)
    (accelerations speeds tolerances : Option (List robotPose)) :
    CanonReturn × SessionState :=
  (.REJECT, s)

/-- Modelled from the spec: MoveTo is a rejection stub. -/
def MoveTo (s : SessionState) (pose : robotPose) (useBlocking : Bool) :
    CanonReturn × SessionState :=
  (.REJECT, s)

/-- Modelled from the spec: MoveToAxisTarget is a rejection stub. -/
def MoveToAxisTarget (s : SessionState) (axes : robotAxes) (useBlocking : Bool) :
    CanonReturn × SessionState :=
  (.REJECT, s)

/-- Modelled from the spec: MoveAttractor is a rejection stub. -/
def MoveAttractor (s : SessionState) (pose : robotPose) : CanonReturn × SessionState :=
  (.REJECT, s)

/-- Modelled from the spec: MoveBase (declared at crpi_robotiq.h line 379)
is a rejection stub. -/
def MoveBase (s : SessionState) (target : robotPose) : CanonReturn × SessionState :=
  (.REJECT, s)

/-- Modelled from the spec: PointHead is a rejection stub. -/
def PointHead (s : SessionState) (target : robotPose) : CanonReturn × SessionState :=
  (.REJECT, s)

/-- Modelled from the spec: PointAppendage is a rejection stub. -/
def PointAppendage (s : SessionState) (app : CanonRobotAppendage) (target : robotPose) :
    CanonReturn × SessionState :=
  (.REJECT, s)

/-- Modelled from the spec: SetAxialSpeeds is a rejection stub. -/
def SetAxialSpeeds (s : SessionState) (speeds : List Int) : CanonReturn × SessionState :=
  (.REJECT, s)

/-- Modelled from the spec: SetAxialUnits is a rejection stub. -/
def SetAxialUnits (s : SessionState) (unitNames : List String) : CanonReturn × SessionState :=
  (.REJECT, s)

/-- The command register as staged by the constructor: all bits clear, all
targets zero. -/
def initCommand : CommandState :=
  { rACT := false, rMOD := 0, rGTO := false, rATR := false, rICF := false, rICS := false
    posA := 0, spdA := 0, frcA := 0, posB := 0, spdB := 0, frcB := 0
    posC := 0, spdC := 0, frcC := 0, posS := 0, spdS := 0, frcS := 0 }

/-- Status fields before any status read: all zero. -/
def initStatus : StatusFields :=
  { gACT := 0, gMOD := 0, gGTO := 0, gIMC := 0, gSTA := 0
    gDTA := 0, gDTB := 0, gDTC := 0, gDTS := 0, gFLT := 0
    reqEchoA := 0, curPosA := 0, curA := 0
    reqEchoB := 0, curPosB := 0, curB := 0
    reqEchoC := 0, curPosC := 0, curC := 0 }

/-- The Session State at construction, before activation. -/
def initSession : SessionState :=
  { command := initCommand, status := initStatus, statusRegister := []
    graspedOnClose := false, graspedOnOpen := false, allFingersAtPos := false }

/-- Saturated values never exceed the 8-bit maximum. -/
lemma clamp255_le (p : Int) : clamp255 p ≤ 255 := by
  unfold clamp255
  split_ifs <;> omega

/-- Saturation is the identity on in-range values. -/
lemma clamp255_of_mem (p : Int) (h0 : 0 ≤ p) (h1 : p ≤ 255) : (clamp255 p : Int) = p := by
  unfold clamp255
  split_ifs <;> omega

/-- Staging a position target changes no control bit, so it preserves which
axes the mode enables. -/
lemma axisEnabled_setPosition (c : CommandState) (a b : Axis) (p : Int) :
    axisEnabled (setPosition c a p) b = axisEnabled c b := by
  cases a <;> cases b <;>
    simp [axisEnabled, scissorEnabled, setPosition, setPositionFingerA, setPositionFingerB,
      setPositionFingerC, setPositionScissor]

/-- C1: for every axis (Finger A, B, C, Scissor) and every integer input p,
staging p as that axis's position target and then encoding yields a
position byte equal to p when p is in 0..255 and equal to the nearest
boundary otherwise (for the scissor axis, whenever the mode enables it);
the staged value saturates, never exceeds 255, and never wraps modulo 256;
and the per-axis speed and force setters stage the same saturated value. -/
theorem C1_position_saturation (c : CommandState) (a : Axis) (p : Int) :
    (axisEnabled c a = true →
      (encodeCommand (setPosition c a p)).getD (posIndex a) 0 =
        if p < 0 then 0 else if p > 255 then 255 else p.toNat)
    ∧ (setPosition c a p).posOf a = clamp255 p
    ∧ (setPosition c a p).posOf a ≤ 255
    ∧ (0 ≤ p → p ≤ 255 → ((setPosition c a p).posOf a : Int) = p)
    ∧ (setSpeed c a p).spdOf a = clamp255 p
    ∧ (setForce c a p).frcOf a = clamp255 p
    ∧ (setSpeed c a p).spdOf a ≤ 255
    ∧ (setForce c a p).frcOf a ≤ 255 := by
  have hle := clamp255_le p
  have hmem := clamp255_of_mem p
  cases a <;>
    simp_all [encodeCommand, posIndex, setPosition, setSpeed, setForce,
      setPositionFingerA, setPositionFingerB, setPositionFingerC, setPositionScissor,
      setSpeedFingerA, setSpeedFingerB, setSpeedFingerC, setSpeedScissor,
      setForceFingerA, setForceFingerB, setForceFingerC, setForceScissor,
      CommandState.posOf, CommandState.spdOf, CommandState.frcOf,
      axisEnabled, scissorEnabled, scissorPosByte, clamp255]

/-- C1 witness: staging 300 for finger A saturates the encoded position
byte to 255, and staging 7 stages exactly 7. -/
theorem C1_position_saturation_witness :
    (encodeCommand (setPosition initCommand .A 300)).getD (posIndex .A) 0 = 255
    ∧ ((setPosition initCommand .B 7).posOf .B : Int) = 7 := by
  refine ⟨?_, ?_⟩
  · have h := (C1_position_saturation initCommand .A 300).1 (by decide)
    simpa using h
  · exact (C1_position_saturation initCommand .B 7).2.2.2.1 (by decide) (by decide)

/-- C2: a received status frame that fails length validation (too short to
hold the fixed-size status register) or leading-marker validation is
rejected as a whole: the Session State after the read — the cached status
register bytes, the decoded status fields and the derived booleans — is
exactly the state before the read; no field is partially overwritten. -/
theorem C2_defensive_decode (frame : List Nat) (s : SessionState)
    (h : frame.length < statusOffset + statusRegisterLength ∨ frame.headD 0 ≠ statusMarker) :
    getStatusRegisters frame s = s := by
  unfold getStatusRegisters
  exact if_pos h

/-- C2 witness: a three-byte frame is too short and leaves the initial
session untouched. -/
theorem C2_defensive_decode_witness :
    getStatusRegisters [9, 1, 2] initSession = initSession :=
  C2_defensive_decode [9, 1, 2] initSession (Or.inl (by decide))

/-- C3: a transmit of the command register that is not acknowledged within
the bounded timeout returns the transport-failure result FAILURE and
leaves the Session State exactly as it was before the transmit; an
unacknowledged command is never partially applied. -/
theorem C3_timeout_no_partial_application (s : SessionState) :
    sendCommand s .timedOut = (CanonReturn.FAILURE, s)
    ∧ (sendCommand s .timedOut).1 ≠ CanonReturn.REJECT := by
  exact ⟨rfl, by simp [sendCommand]⟩

/-- C4: while no status read has echoed the activation bit, issuing a Move
through the parameter setter yields the rejection result REJECT — not a
transport failure — and leaves the Session State unmutated; after a status
read of a valid frame whose decoded status echoes the activation bit, the
identical Move on the same session is accepted. -/
theorem C4_move_requires_activation (s : SessionState) (v : Int) (frame : List Nat) :
    (s.status.gACT ≠ 1 → SetParameter s "move" v = (CanonReturn.REJECT, s))
    ∧ (¬ (frame.length < statusOffset + statusRegisterLength ∨ frame.headD 0 ≠ statusMarker) →
       (decodeStatus ((frame.drop statusOffset).take statusRegisterLength)).gACT = 1 →
       (SetParameter (getStatusRegisters frame s) "move" v).1 = CanonReturn.SUCCESS) := by
  have hmove : parseParam "move" = some parameter.MOVE := by decide
  constructor
  · intro h
    unfold SetParameter
    rw [hmove]
    simp [setHandParam, activated, h]
  · intro hval hact
    unfold SetParameter
    rw [hmove]
    unfold getStatusRegisters
    rw [if_neg hval]
    simp [setHandParam, activated, hact]

/-- C4 witness: on the freshly constructed session the Move is rejected,
and after reading a valid frame whose status byte has the activation bit
set the same Move succeeds. -/
theorem C4_move_requires_activation_witness :
    SetParameter initSession "move" 5 = (CanonReturn.REJECT, initSession)
    ∧ (SetParameter (getStatusRegisters (buildStatusFrame 1 0 0 0 0 0) initSession) "move" 5).1 =
        CanonReturn.SUCCESS := by
  refine ⟨(C4_move_requires_activation initSession 5 []).1 (by decide), ?_⟩
  exact (C4_move_requires_activation initSession 5 (buildStatusFrame 1 0 0 0 0 0)).2
    (by decide) (by decide)

/-- C5: for every decoded status whose detection flags are 2-bit values (as
every decoded status register yields), the derived all-fingers-at-position
flag is true if and only if every axis enabled by the current mode reports
stopped-opening-detected, stopped-closing-detected or at-target; and it is
false whenever any enabled axis still reports in-motion. -/
theorem C5_all_fingers_at_pos (st : StatusFields) :
    (st.gDTA < 4 → st.gDTB < 4 → st.gDTC < 4 → st.gDTS < 4 →
      (computeAllFingersAtPos st = true ↔
        ∀ a ∈ enabledAxes st.gMOD,
          detectFlag st a = 1 ∨ detectFlag st a = 2 ∨ detectFlag st a = 3))
    ∧ (∀ a ∈ enabledAxes st.gMOD, detectFlag st a = 0 → computeAllFingersAtPos st = false) := by
  constructor
  · intro hA hB hC hS
    by_cases hm : st.gMOD = 3 <;>
      simp [computeAllFingersAtPos, enabledAxes, hm, detectFlag] <;> omega
  · intro a ha h0
    by_cases hm : st.gMOD = 3
    · simp [enabledAxes, hm] at ha
      subst ha
      simp_all [computeAllFingersAtPos, enabledAxes, hm, detectFlag]
    · simp [enabledAxes, hm] at ha
      rcases ha with ha | ha | ha <;> subst ha <;>
        simp_all [computeAllFingersAtPos, enabledAxes, detectFlag]

/-- C5 witness: with fingers A, B, C reporting flags 1, 2, 3 in a
three-finger mode the derived flag is true; with finger A in motion it is
false. -/
theorem C5_all_fingers_at_pos_witness :
    computeAllFingersAtPos { initStatus with gDTA := 1, gDTB := 2, gDTC := 3 } = true
    ∧ computeAllFingersAtPos { initStatus with gDTB := 2, gDTC := 3 } = false := by
  constructor
  · exact ((C5_all_fingers_at_pos { initStatus with gDTA := 1, gDTB := 2, gDTC := 3 }).1
      (by decide) (by decide) (by decide) (by decide)).mpr (by decide)
  · exact (C5_all_fingers_at_pos { initStatus with gDTB := 2, gDTC := 3 }).2 .A
      (by decide) (by decide)

/-- C6: the generic named-parameter setter resolves a name successfully
exactly when it is one of the seven recognized operation names, in which
case the call dispatches to the matching internal mutation setHandParam;
every other name yields REJECT with the Session State unmutated. -/
theorem C6_parameter_dispatch (name : String) (s : SessionState) (v : Int) :
    ((parseParam name).isSome = true ↔
        name = "activate" ∨ name = "grip" ∨ name = "move" ∨ name = "auto-release" ∨
        name = "auto-center" ∨ name = "advanced-control" ∨ name = "scissor-control")
    ∧ (∀ p : parameter, parseParam name = some p → SetParameter s name v = setHandParam s p v)
    ∧ (parseParam name = none → SetParameter s name v = (CanonReturn.REJECT, s)) := by
  refine ⟨?_, ?_, ?_⟩
  · unfold parseParam
    split_ifs <;> simp_all
  · intro p hp
    unfold SetParameter
    rw [hp]
  · intro hp
    unfold SetParameter
    rw [hp]

/-- C6 witness: an unrecognized name is rejected without mutation, and the
name grip dispatches to the GRIP mutation. -/
theorem C6_parameter_dispatch_witness :
    SetParameter initSession "bogus" 0 = (CanonReturn.REJECT, initSession)
    ∧ SetParameter initSession "grip" 1 = setHandParam initSession .GRIP 1 := by
  exact ⟨(C6_parameter_dispatch "bogus" initSession 0).2.2 (by decide),
    (C6_parameter_dispatch "grip" initSession 1).2.1 .GRIP (by decide)⟩

/-- C7: every public operation meaningful only for articulated arms —
Cartesian force/torque and joint torque application, straight-line,
through, convenient-trajectory, attractor and axis-target motion, base,
head and appendage pointing, and axial speed/unit array setting — returns
the rejection result for all inputs and leaves the Session State
unchanged. -/
theorem C7_arm_operations_rejected (s : SessionState) (pose target : robotPose)
    (activeAxes manipulator : List Bool) (jointTorque axes : robotAxes) (useBlocking : Bool)
    (poses : List robotPose) (numPoses : Nat) (accs spds tols : Option (List robotPose))
    (app : CanonRobotAppendage) (speeds : List Int) (unitNames : List String) :
    ApplyCartesianForceTorque s pose activeAxes manipulator = (CanonReturn.REJECT, s)
    ∧ ApplyJointTorque s jointTorque = (CanonReturn.REJECT, s)
    ∧ MoveStraightTo s pose useBlocking = (CanonReturn.REJECT, s)
    ∧ MoveThroughTo s poses numPoses accs spds tols = (CanonReturn.REJECT, s)
    ∧ MoveTo s pose useBlocking = (CanonReturn.REJECT, s)
    ∧ MoveToAxisTarget s axes useBlocking = (CanonReturn.REJECT, s)
    ∧ MoveAttractor s pose = (CanonReturn.REJECT, s)
    ∧ MoveBase s target = (CanonReturn.REJECT, s)
    ∧ PointHead s target = (CanonReturn.REJECT, s)
    ∧ PointAppendage s app target = (CanonReturn.REJECT, s)
    ∧ SetAxialSpeeds s speeds = (CanonReturn.REJECT, s)
    ∧ SetAxialUnits s unitNames = (CanonReturn.REJECT, s) :=
  ⟨rfl, rfl, rfl, rfl, rfl, rfl, rfl, rfl, rfl, rfl, rfl, rfl⟩

/-- C8: decoding a synthetic status frame built from chosen activation,
mode, go-to, initialization, gripper-status and fault values in the
codec-compatible layout reproduces exactly those field values in the
decoded status. -/
theorem C8_status_roundtrip (s : SessionState) (act mode gto imc sta flt : Nat)
    (hact : act < 2) (hmode : mode < 4) (hgto : gto < 2) (himc : imc < 4) (hsta : sta < 4) :
    (getStatusRegisters (buildStatusFrame act mode gto imc sta flt) s).status.gACT = act
    ∧ (getStatusRegisters (buildStatusFrame act mode gto imc sta flt) s).status.gMOD = mode
    ∧ (getStatusRegisters (buildStatusFrame act mode gto imc sta flt) s).status.gGTO = gto
    ∧ (getStatusRegisters (buildStatusFrame act mode gto imc sta flt) s).status.gIMC = imc
    ∧ (getStatusRegisters (buildStatusFrame act mode gto imc sta flt) s).status.gSTA = sta
    ∧ (getStatusRegisters (buildStatusFrame act mode gto imc sta flt) s).status.gFLT = flt := by
  have hv : ¬ ((buildStatusFrame act mode gto imc sta flt).length <
        statusOffset + statusRegisterLength
      ∨ (buildStatusFrame act mode gto imc sta flt).headD 0 ≠ statusMarker) := by
    simp [buildStatusFrame, statusOffset, statusRegisterLength, statusMarker]
  unfold getStatusRegisters
  rw [if_neg hv]
  simp [buildStatusFrame, decodeStatus, statusOffset, statusRegisterLength, List.getD]
  omega

/-- C8 witness: a concrete fixture with activation 1, mode 2, go-to 1,
initialization 3, gripper status 1 and fault 5 decodes back to exactly
those values. -/
theorem C8_status_roundtrip_witness :
    (getStatusRegisters (buildStatusFrame 1 2 1 3 1 5) initSession).status.gACT = 1
    ∧ (getStatusRegisters (buildStatusFrame 1 2 1 3 1 5) initSession).status.gMOD = 2
    ∧ (getStatusRegisters (buildStatusFrame 1 2 1 3 1 5) initSession).status.gGTO = 1
    ∧ (getStatusRegisters (buildStatusFrame 1 2 1 3 1 5) initSession).status.gIMC = 3
    ∧ (getStatusRegisters (buildStatusFrame 1 2 1 3 1 5) initSession).status.gSTA = 1
    ∧ (getStatusRegisters (buildStatusFrame 1 2 1 3 1 5) initSession).status.gFLT = 5 :=
  C8_status_roundtrip initSession 1 2 1 3 1 5 (by decide) (by decide) (by decide)
    (by decide) (by decide)

/-- The status-read operation is determined by the validation condition,
the leading byte and the extracted register window of the frame. -/
lemma getStatusRegisters_congr (f g : List Nat) (s : SessionState)
    (hlen : f.length < statusOffset + statusRegisterLength ↔
      g.length < statusOffset + statusRegisterLength)
    (hhead : f.headD 0 = g.headD 0)
    (hreg : (f.drop statusOffset).take statusRegisterLength =
      (g.drop statusOffset).take statusRegisterLength) :
    getStatusRegisters f s = getStatusRegisters g s := by
  unfold getStatusRegisters
  simp only [hlen, hhead, hreg]

/-- C10: the wire-frame sizes are the concrete constants fixed by the
buffer declarations in the header — the command register is exactly 43
bytes and the status register exactly 12 bytes; every encode produces
exactly 43 bytes, and every status decode reads only the bytes within the
12-byte register window of the received frame (truncating the frame past
that window never changes the result). -/
theorem C10_frame_bounds :
    commandRegisterLength = 43 ∧ statusRegisterLength = 12
    ∧ (∀ c : CommandState, (encodeCommand c).length = commandRegisterLength)
    ∧ (∀ (frame : List Nat) (s : SessionState),
        getStatusRegisters frame s =
          getStatusRegisters (frame.take (statusOffset + statusRegisterLength)) s) := by
  refine ⟨rfl, rfl, fun c => by simp [encodeCommand, commandRegisterLength], ?_⟩
  intro frame s
  apply getStatusRegisters_congr
  · simp [List.length_take]
  · cases frame with
    | nil => rfl
    | cons a t =>
      have h13 : statusOffset + statusRegisterLength = 12 + 1 := rfl
      rw [h13, List.take_succ_cons]
      rfl
  · cases frame with
    | nil => rfl
    | cons a t =>
      have h13 : statusOffset + statusRegisterLength = 12 + 1 := rfl
      rw [h13, List.take_succ_cons]
      simp [statusOffset, statusRegisterLength, List.take_take]

end CrpiRobotiq
